import Mathlib

/-!
Verification development for the school AI backend handler (`src/api/ai.ts`,
TypeScript variant).  The definitions below are a shallow embedding of the
source: JavaScript strings become Lean `String`, absent/`undefined` fields
become `Option`, JavaScript falsy checks on strings (`""` is falsy) are made
explicit with `jsTruthy`, timestamps (`Date.now()`) are an explicit `Nat`
parameter, and the external `fetch` calls (Gemini, Brave) are modelled by an
outcome value supplied in the environment (either a thrown error message or a
response payload).  Floating point temperatures 0.15 / 0.2 are represented in
thousandths (150 / 200).
-/

/-! ## Word-boundary phrase matching

The forbidden-intent and heuristic checks in the source are regexes of the
shape `/\b(p1|p2|...)\b/i` where every alternative starts and ends with a
word character (`[A-Za-z0-9_]`).  Such a regex matches a text iff some
alternative occurs in the text case-insensitively with a non-word character
(or the text edge) on both sides.  `testPhrase` implements exactly that. -/

def isWordChar (c : Char) : Bool := c.isAlphanum || c == '_'

def charLowerEq (a b : Char) : Bool := a.toLower == b.toLower

/-- Case-insensitive match of the pattern against an initial segment of the
text; returns the remaining text on success. -/
def matchCaseless : List Char → List Char → Option (List Char)
  | [], rest => some rest
  | _ :: _, [] => none
  | p :: ps, c :: cs => if charLowerEq p c then matchCaseless ps cs else none

def boundaryBefore : Option Char → Bool
  | none => true
  | some c => !(isWordChar c)

def boundaryAfterOk : List Char → Bool
  | [] => true
  | c :: _ => !(isWordChar c)

/-- Does the phrase occur here, with `\b` satisfied on both sides?
`prev` is the character immediately before the current position. -/
def phraseAtPos (p : List Char) (prev : Option Char) (l : List Char) : Bool :=
  match matchCaseless p l with
  | none => false
  | some rest => boundaryBefore prev && boundaryAfterOk rest

def phraseScan (p : List Char) : Option Char → List Char → Bool
  | prev, [] => phraseAtPos p prev []
  | prev, c :: cs => phraseAtPos p prev (c :: cs) || phraseScan p (some c) cs

/-- Evaluates `/\b⟨p⟩\b/i.test(text)` for a literal phrase `p`. -/
def testPhrase (p : String) (text : String) : Bool :=
  phraseScan p.toList none text.toList

/-- Evaluates `/\b(p1|p2|...)\b/i.test(text)`. -/
def testAny (ps : List String) (text : String) : Bool :=
  ps.any (fun p => testPhrase p text)

/-! ## ViolationDetector (src/api/ai.ts lines 316-328) -/

structure ForbiddenPat where
  phrases : List String
  reason : String
deriving DecidableEq

/-- Source `FORBIDDEN_PATTERNS` of the TypeScript variant, with each alternation
expanded into its list of literal phrases
(`play (games|minecraft|roblox)` expands to three phrases). -/
def FORBIDDEN_PATTERNS : List ForbiddenPat := [
  ⟨["do my homework", "write my essay", "take my test", "do my assignment",
    "complete my assignment"], "academic dishonesty"⟩,
  ⟨["cheat", "cheating", "exam answers", "test answers"], "cheating"⟩,
  ⟨["bomb", "explosive", "detonate", "make a bomb"], "weapons/explosives"⟩,
  ⟨["how to hack", "hack into", "break into"], "illegal hacking"⟩,
  ⟨["play games", "play minecraft", "play roblox", "start a game for me"],
    "playing games / disruption"⟩]

/-- Source `checkViolations` (lines 324-328): one hit per matching pattern, in
declaration order. -/
def checkViolations (text : String) : List String :=
  FORBIDDEN_PATTERNS.foldl
    (fun hits p => if testAny p.phrases text then hits ++ [p.reason] else hits) []

/-! ## GradeRubric (src/api/ai.ts lines 386-414) -/

def digitVal (c : Char) : Nat := c.toNat - 48

/-- First match of `/(\d{1,2})/`: the first digit in the text together with a
second digit if one immediately follows, parsed as a decimal number. -/
def firstDigitRun : List Char → Option Nat
  | [] => none
  | c :: cs =>
    if c.isDigit then
      match cs with
      | d :: _ => if d.isDigit then some (digitVal c * 10 + digitVal d)
                  else some (digitVal c)
      | [] => some (digitVal c)
    else firstDigitRun cs

/-- Exact (case-sensitive) substring test, used for `s.includes(...)` where
both sides are already lowercased. -/
def subAt : List Char → List Char → Bool
  | [], _ => true
  | _ :: _, [] => false
  | p :: ps, c :: cs => p == c && subAt ps cs

def hasSub (p : List Char) : List Char → Bool
  | [] => subAt p []
  | c :: cs => subAt p (c :: cs) || hasSub p cs

/-- Evaluates `s.includes(pat)`. -/
def strHasSub (s pat : String) : Bool := hasSub pat.toList s.toList

/-- JavaScript `String.prototype.trim()`: strip leading and trailing
whitespace.  Implemented structurally over the character list so that it
reduces in the kernel (core `String.trim` uses well-founded recursion). -/
def jsTrim (s : String) : String :=
  ⟨((s.toList.dropWhile Char.isWhitespace).reverse.dropWhile Char.isWhitespace).reverse⟩

/-- Evaluates `toLowerCase()`, structurally over the character list. -/
def lowerStr (s : String) : String := ⟨s.toList.map Char.toLower⟩

/-- Evaluates `s.slice(0, n)`, structurally over the character list. -/
def strTake (s : String) (n : Nat) : String := ⟨s.toList.take n⟩

/-- Source `normalizeGrade` (lines 386-397).  `none` models JavaScript `null`:
falsy input (absent or empty string) yields `null`, otherwise the first run
of one or two digits wins, else keyword containment on the lowercased
trimmed string, else `null`. -/
def normalizeGrade (g : Option String) : Option Nat :=
  match g with
  | none => none
  | some raw =>
    if raw == "" then none
    else
      let s := lowerStr (jsTrim raw)
      match firstDigitRun s.toList with
      | some n => some n
      | none =>
        if strHasSub s "k" then some 0
        else if strHasSub s "elementary" then some 3
        else if strHasSub s "middle" then some 7
        else if strHasSub s "high" then some 10
        else none

/-- The five grade bands of the spec; `gradeRubricSummary` returns exactly
one fixed string per band. -/
inductive GradeBand where
  | unspecified
  | elementary
  | middle
  | high
  | advanced
deriving DecidableEq

/-- The branch structure of `gradeRubricSummary` (lines 398-414): which of
the five return statements fires for a given normalized grade. -/
def bandOfGrade : Option Nat → GradeBand
  | none => .unspecified
  | some g =>
    if g = 0 ∨ g ≤ 5 then .elementary
    else if 6 ≤ g ∧ g ≤ 8 then .middle
    else if 9 ≤ g ∧ g ≤ 12 then .high
    else .advanced

/-- The literal strings returned by the five branches of
`gradeRubricSummary`. -/
def summaryOfBand : GradeBand → String
  | .unspecified => "Grade not specified: default to general K-12 expectations (be conservative; prefer simpler language and scaffolded suggestions)."
  | .elementary => "Elementary (K-5) rubric: focus on clear topic sentences, basic paragraph structure, short sentences, simple transitions, spelling/grammar, and clear main idea. Suggestions should be concrete and step-by-step."
  | .middle => "Middle school (6-8) rubric: expect clearer thesis statements, paragraphs with evidence and explanation, improved transitions, basic citation/attribution, and logical flow. Suggest revisions that teach paragraph development and evidence explanation."
  | .high => "High school (9-12) rubric: expect a clear thesis, structured paragraphs with claims and textual evidence, deeper analysis, varied sentence structure, and appropriate tone. Suggest revisions for argument strength, evidence integration, sophistication of analysis, and organization."
  | .advanced => "Grade level indicates advanced expectations: use college-prep rubric focusing on argument coherence, evidence evaluation, and polished style."

/-- Source `gradeRubricSummary` (lines 398-414), factored through the band its
if-chain selects. -/
def gradeRubricSummary (gradeRaw : Option String) : String :=
  summaryOfBand (bandOfGrade (normalizeGrade gradeRaw))

/-- The band a raw grade designator normalizes to. -/
def normBand (g : Option String) : GradeBand :=
  bandOfGrade (normalizeGrade g)

/-- Spec-side textual names of the five bands ({unspecified, K-5, 6-8, 9-12,
advanced}); used to state the idempotence part of the grade claim. -/
def bandName : GradeBand → String
  | .unspecified => "unspecified"
  | .elementary => "K-5"
  | .middle => "6-8"
  | .high => "9-12"
  | .advanced => "advanced"

/-! ## ConversationStore, in-memory fallback (src/api/ai.ts lines 272-313) -/

structure StoredMsg where
  role : String
  content : String
  ts : Nat
deriving DecidableEq

/-- Source `IN_MEMORY_MEMORY : Map<string, any[]>`; a missing key reads as `[]`. -/
def Mem : Type := String → List StoredMsg

def emptyMem : Mem := fun _ => []

def updateMem (m : Mem) (u : String) (v : List StoredMsg) : Mem :=
  fun x => if x = u then v else m x

def MAX_MESSAGES_PER_USER : Nat := 150

/-- Source `appendMemory` (lines 292-304), in-memory branch: push, then
`splice(0, arr.length - MAX_MESSAGES_PER_USER)` when over the bound. -/
def appendMemory (mem : Mem) (userId : String) (msg : StoredMsg) : Mem :=
  let arr := mem userId ++ [msg]
  let arr2 := if arr.length > MAX_MESSAGES_PER_USER
              then arr.drop (arr.length - MAX_MESSAGES_PER_USER) else arr
  updateMem mem userId arr2

/-- Source `readMemory` (lines 306-313), in-memory branch. -/
def readMemory (mem : Mem) (userId : String) : List StoredMsg := mem userId

/-! ## ResultCache, in-memory fallback `contextCache` (lines 275-290) -/

structure CacheEntry (α : Type) where
  value : α
  expiresAt : Nat
deriving DecidableEq

def Cache (α : Type) : Type := String → Option (CacheEntry α)

def emptyCache {α : Type} : Cache α := fun _ => none

/-- Source `contextCache.get` (lines 280-285): a miss when absent or when
`Date.now() > expiresAt` (the source also lazily deletes the expired entry;
the returned value is modelled here). -/
def cacheGet {α : Type} (now : Nat) (c : Cache α) (k : String) : Option α :=
  match c k with
  | none => none
  | some e => if now > e.expiresAt then none else some e.value

/-- Source `contextCache.set` (lines 286-288); the source defaults `ttl` to
`1000 * 60 * 10`, callers here always pass it explicitly. -/
def cacheSet {α : Type} (now : Nat) (c : Cache α) (k : String) (v : α)
    (ttl : Nat) : Cache α :=
  fun x => if x = k then some ⟨v, now + ttl⟩ else c x

/-! ## Request body and JavaScript truthiness helpers -/

/-- A JSON value used as a boolean-or-string override flag
(`useBraveSearch` / `useReasoning`). -/
inductive JsFlag where
  | absent
  | boolv (b : Bool)
  | strv (s : String)
deriving DecidableEq

/-- The recognized fields of the POST body; `none` models an absent field. -/
structure Body where
  userId : Option String := none
  user : Option String := none
  action : Option String := none
  message : Option String := none
  essay : Option String := none
  url : Option String := none
  grade : Option String := none
  gradeLevel : Option String := none
  gradeLevelRaw : Option String := none
  useBraveSearch : JsFlag := .absent
  useReasoning : JsFlag := .absent
  searchQuery : Option String := none
deriving DecidableEq

/-- JavaScript truthiness of an optional string: absent and `""` are falsy. -/
def jsTruthy : Option String → Option String
  | none => none
  | some s => if s == "" then none else some s

/-- Source `String(body.userId || body.user || 'anon')` (line 448). -/
def userIdOf (b : Body) : String :=
  match jsTruthy b.userId with
  | some s => s
  | none =>
    match jsTruthy b.user with
    | some s => s
    | none => "anon"

/-- Source `body.action || 'chat'` (line 449). -/
def actionOf (b : Body) : String := (jsTruthy b.action).getD "chat"

/-- Source `body.grade || body.gradeLevel || body.gradeLevelRaw || null` (line 453). -/
def gradeRawOf (b : Body) : Option String :=
  match jsTruthy b.grade with
  | some s => some s
  | none =>
    match jsTruthy b.gradeLevel with
    | some s => some s
    | none => jsTruthy b.gradeLevelRaw

/-! ## HeuristicEngine (lines 368-383) -/

/-- The two override checks shared by both heuristics:
`flag === true`, or `typeof flag === 'string'` and in `['1','true','yes']`. -/
def flagTruthy (f : JsFlag) : Bool :=
  match f with
  | .boolv true => true
  | .strv s => s == "1" || s == "true" || s == "yes"
  | _ => false

def SEARCH_KEYWORDS : List String :=
  ["search for", "find", "sources", "verify", "ground", "cite",
   "reference", "references"]

/-- Source `needsSearchHeuristic` (lines 368-374). -/
def needsSearchHeuristic (b : Body) : Bool :=
  if flagTruthy b.useBraveSearch then true
  else if testAny SEARCH_KEYWORDS (b.message.getD "") then true
  else if (jsTruthy b.url).isSome then true
  else false

def REASONING_KEYWORDS : List String :=
  ["analyze", "critique", "evaluate", "grade", "feedback", "rubric"]

/-- Source `String(body.message || body.essay || '')` (line 379): the message if
non-empty, else the essay. -/
def reasoningContent (b : Body) : String :=
  if b.message.getD "" != "" then b.message.getD "" else b.essay.getD ""

/-- Source `needsReasoningHeuristic` (lines 375-383). -/
def needsReasoningHeuristic (b : Body) : Bool :=
  if flagTruthy b.useReasoning then true
  else if b.action == some "analyze_essay" then true
  else if (reasoningContent b).length > 800 then true
  else testAny REASONING_KEYWORDS (reasoningContent b)

/-! ## CompletionClient `callGemini` (lines 345-365) -/

structure GeminiOpts where
  tempMilli : Nat
  maxTokens : Nat
deriving DecidableEq

/-- The parsed JSON of a Gemini response: the three recognized shapes plus
its bounded serialization (`JSON.stringify(j)`). -/
structure GeminiJson where
  outputText : Option String
  choice0Text : Option String
  text : Option String
  serialized : String
deriving DecidableEq

/-- What the `fetch` to Gemini does: throw, or produce a JSON body. -/
inductive FetchOutcome where
  | throws (msg : String)
  | ok (j : GeminiJson)
deriving DecidableEq

def NO_KEY_SENTINEL : String := "No GEMINI_API_KEY configured."

/-- Source `callGemini` (lines 345-365).  `opts` only shapes the outbound request
body in the source, so it does not influence the returned string.  Truthiness
of the three candidate fields follows JavaScript (`""` falls through). -/
def callGemini (apiKey : String) (opts : GeminiOpts)
    (outcome : FetchOutcome) : String :=
  if apiKey == "" then NO_KEY_SENTINEL
  else
    match outcome with
    | .throws m => "LLM call error: " ++ m
    | .ok j =>
      match jsTruthy j.outputText with
      | some t => t
      | none =>
        match jsTruthy j.choice0Text with
        | some t => t
        | none =>
          match jsTruthy j.text with
          | some t => t
          | none => strTake j.serialized 2000

/-! ## Brave search and its cache use (lines 331-342, 479-495) -/

/-- A successful Brave response, reduced to what the handler consumes:
`payloadTop3` stands for `JSON.stringify(json.web.results.slice(0,3))` and
`limit` for the rate-limit header. -/
structure SearchVal where
  payloadTop3 : String
  limit : Option String
deriving DecidableEq

/-- Outcome of the Brave `fetch`: a thrown error (transport failure or the
`r.ok` check at lines 335-338) or a response value. -/
inductive BraveOutcome where
  | ok (v : SearchVal)
  | throws (msg : String)
deriving DecidableEq

/-- Source `braveWebSearch` (lines 331-342): throws when no token is configured,
otherwise propagates the fetch outcome, as `Except`. -/
def braveWebSearch (token : String) (outcome : BraveOutcome) :
    Except String SearchVal :=
  if token == "" then .error "BRAVE_SUBSCRIPTION_TOKEN not configured"
  else
    match outcome with
    | .ok v => .ok v
    | .throws m => .error m

/-- Source `body.searchQuery || (essay ? essay.slice(0, 300) : message.slice(0, 300))`
(line 482). -/
def braveQueryOf (b : Body) : String :=
  match jsTruthy b.searchQuery with
  | some q => q
  | none =>
    if b.essay.getD "" != "" then strTake (b.essay.getD "") 300
    else strTake (b.message.getD "") 300

/-- The cache key `` `brave:${query}` `` (line 483) — the only cache-key
derivation in the source. -/
def braveCacheKeyOf (b : Body) : String := "brave:" ++ braveQueryOf b

/-- What the `searchResults` variable holds after the search block. -/
inductive SearchState where
  | noSearch
  | hit (v : SearchVal)
  | fetched (v : SearchVal)
  | failed (msg : String)
deriving DecidableEq

/-- The search block of the handler (lines 479-495): runs only when the
heuristic fired and a token is configured; consults the cache, otherwise
fetches and caches with a 5-minute TTL; a failure is caught and recorded. -/
def searchStep (env_now : Nat) (braveToken : String) (braveOut : BraveOutcome)
    (cache : Cache SearchVal) (b : Body) (doSearch : Bool) :
    SearchState × Cache SearchVal :=
  if doSearch && (braveToken != "") then
    let key := braveCacheKeyOf b
    match cacheGet env_now cache key with
    | some v => (.hit v, cache)
    | none =>
      match braveWebSearch braveToken braveOut with
      | .ok v => (.fetched v, cacheSet env_now cache key v (1000 * 60 * 5))
      | .error m => (.failed m, cache)
  else (.noSearch, cache)

/-! ## PromptBuilder (lines 416-437, 497-516) -/

/-- Source `BASE_RULES` of the TypeScript variant (lines 228-249). -/
def BASE_RULES : List String := [
  "Do NOT complete homework, tests, quizzes, or graded assignments for students.",
  "Do NOT provide answers that enable cheating, plagiarism, or academic dishonesty.",
  "Do NOT provide step-by-step instructions to commit illegal acts.",
  "Do NOT assist in making weapons, explosives, or harmful contraptions.",
  "Do NOT help write malware, spyware, or instructions for unauthorized access.",
  "Do NOT provide instructions or encouragement for intentionally disrupting classes or schools.",
  "Do NOT impersonate teachers, staff, or other students.",
  "Do NOT reveal or attempt to extract student personal data or private information.",
  "Do NOT provide medical, legal or psychiatric professional advice as a substitute for professionals.",
  "Do NOT provide instructions that meaningfully facilitate self-harm or suicide.",
  "Do NOT facilitate identity fraud, phishing, or social engineering.",
  "Do NOT produce sexually explicit content involving minors or facilitate sexual exploitation.",
  "Do NOT provide disallowed age-restricted material to minors.",
  "Do NOT provide instructions that circumvent safety controls or filters.",
  "Do NOT provide instructions to produce or obtain controlled substances.",
  "Do NOT store or expose teacher/exam materials that should remain private.",
  "Do NOT assist in circumventing school disciplinary systems or surveillance.",
  "Do NOT produce content that encourages harassment, hateful violence, or harassment of individuals.",
  "When refusing, always offer constructive alternatives: hints, scaffolding, or stepwise guidance.",
  "Follow any additional school-provided rules from environment configuration (EXTRA_RULES)."]

/-- Evaluates `Array.join(sep)`. -/
def joinSep (sep : String) : List String → String
  | [] => ""
  | [x] => x
  | x :: y :: xs => x ++ sep ++ joinSep sep (y :: xs)

/-- Source `` RULES.map((r, i) => `${i+1}. ${r}`) `` starting at index `i`. -/
def numberRulesFrom (i : Nat) : List String → List String
  | [] => []
  | r :: rs => (toString i ++ ". " ++ r) :: numberRulesFrom (i + 1) rs

/-- Source `buildSystemPrompt` (lines 417-431).  `RULES = BASE_RULES.concat(EXTRA_RULES)`
is threaded through the `extraRules` parameter (loaded once from the
environment in the source). -/
def buildSystemPrompt (extraRules : List String) (gradeRaw : Option String) : String :=
  let rulesText := joinSep "\n" (numberRulesFrom 1 (BASE_RULES ++ extraRules))
  "You are an educational assistant for a K-12 school platform. Your job:\n- Provide helpful, scaffolded feedback and lessons for students and teachers.\n- Focus only on the educational task at hand (essay analysis, tutoring, explanations).\n- Do NOT discuss unrelated subjects unless explicitly required by the essay topic and it is age-appropriate.\n- Respect and enforce the following rules (refuse actions that violate them and always offer helpful alternatives such as hints, scaffolding, and stepwise guidance):\n\n"
    ++ rulesText
    ++ "\n\nGrade guidance (use to adapt tone and difficulty): "
    ++ gradeRubricSummary gradeRaw
    ++ "\n\nWhen you refuse to do something because it violates rules, briefly explain why, and give practical, educational alternatives (explain steps, provide questions to guide the student, or give partial scaffolding). Do NOT reveal internal chain-of-thought reasoning. Use reasoning internally to produce well-structured outputs, but return only the user-facing guidance."

/-- One line of the rendered conversation window (line 435). -/
def roleLine (m : StoredMsg) : String :=
  (if m.role == "user" then "User: " else "Assistant: ") ++ m.content

/-- Source `buildConversationContext` (lines 433-437): the system prompt with no
grade, the last 40 stored messages oldest-first, then the extra context. -/
def buildConversationContext (extraRules : List String) (mem : Mem)
    (userId : String) (extra : String) : String :=
  let msgs := readMemory mem userId
  let recent := joinSep "\n" ((msgs.drop (msgs.length - 40)).map roleLine)
  buildSystemPrompt extraRules none
    ++ "\n\nRecent conversation (most recent last):\n" ++ recent ++ "\n\n" ++ extra

/-- Source `JSON.stringify(searchResults?.json?.web?.results?.slice(0,3) || []).slice(0,8000)`
(line 500): the cached/fetched payload bounded to 8000 characters, or the
serialization `"[]"` when there is no successful result to read from. -/
def searchTopRender : SearchState → String
  | .hit v => strTake v.payloadTop3 8000
  | .fetched v => strTake v.payloadTop3 8000
  | .failed _ => "[]"
  | .noSearch => "[]"

/-- Source `extraContext` (lines 499-502): the search line (only when the search
heuristic fired) and the grade-guidance line, joined by a newline
(`filter(Boolean)` drops the empty search line otherwise). -/
def extraContextOf (doSearch : Bool) (st : SearchState) (gradeGuidance : String) : String :=
  if doSearch then
    "Search results (top): " ++ searchTopRender st ++ "\n"
      ++ "Grade guidance: " ++ gradeGuidance
  else "Grade guidance: " ++ gradeGuidance

/-- Source `String(gradeRaw || 'unspecified')` (lines 509, 511). -/
def gradeStr (gradeRaw : Option String) : String :=
  (jsTruthy gradeRaw).getD "unspecified"

/-- The fixed instruction block of the `analyze_essay` prompt between the
conversation context and the essay body (line 509). -/
def analyzeTaskHeader (gradeRaw : Option String) : String :=
  "\n\nTask: Analyze the student\x27s essay below and provide:\n1) 2-3 sentence summary\n2) Strengths\n3) Weaknesses (structure, thesis, evidence, clarity)\n4) Concrete, numbered revision steps tailored to the student\x27s grade level ("
    ++ gradeStr gradeRaw
    ++ "). Make sure suggestions match typical rubrics for that grade.\n5) A short list of scaffolded teacher questions the student can answer to improve.\n6) DO NOT rewrite the essay; provide scaffolding and sample sentences only if explicitly requested.\n\nEssay:\n"

/-- The `analyze_essay` branch prompt (line 509): the essay body is
truncated to 30000 characters by `essayText.slice(0, 30000)`. -/
def mkAnalyzePrompt (extraRules : List String) (gradeRaw : Option String)
    (ctx essayText : String) : String :=
  buildSystemPrompt extraRules gradeRaw
    ++ "\n\nConversation summary:\n" ++ ctx
    ++ analyzeTaskHeader gradeRaw
    ++ strTake essayText 30000

/-- The task-specific prompt composition (lines 506-516).  In the
`analyze_essay` branch the essay body is `essay || message`. -/
def composePrompt (extraRules : List String) (action : String)
    (gradeRaw : Option String) (ctx message essay : String)
    (doReasoning : Bool) : String :=
  if action == "analyze_essay" then
    mkAnalyzePrompt extraRules gradeRaw ctx (if essay != "" then essay else message)
  else if action == "search_and_analyze" then
    buildSystemPrompt extraRules gradeRaw
      ++ "\n\nContext:\n" ++ ctx
      ++ "\n\nUsing the search grounding above, summarize the main points and produce teacher-friendly and student-friendly guidance tailored to grade "
      ++ gradeStr gradeRaw ++ "."
  else
    let internalNote := if doReasoning then "/* Use internal reasoning to produce a high-quality, grade-appropriate answer. Do not reveal chain-of-thought. */" else ""
    buildSystemPrompt extraRules gradeRaw
      ++ "\n\n" ++ internalNote
      ++ "\nConversation:\n" ++ ctx
      ++ "\nUser: " ++ message ++ "\nAssistant:"

/-! ## RequestOrchestrator: the POST handler (lines 440-541) -/

/-- The intent text of the refusal gate:
`` `${message || ''}\n${url || ''}`.trim() `` (line 456). -/
def intentTextOf (b : Body) : String :=
  jsTrim (b.message.getD "" ++ "\n" ++ b.url.getD "")

/-- The refusal reply (line 459). -/
def refusalReply (violations : List String) : String :=
  "I can\x27t help with that because it conflicts with platform rules ("
    ++ joinSep ", " violations
    ++ "). I can help with hints, scaffolding, or step-by-step explanations instead."

/-- The essay advisory text (line 469). -/
def mkEssayWarning (essayViol : List String) : String :=
  "Note: essay text contains potentially concerning phrases ("
    ++ joinSep ", " essayViol
    ++ "). Proceeding with analysis, but teacher review recommended."

/-- The soft essay scan (lines 465-472): a warning only when the essay is
non-empty and matches a forbidden pattern. -/
def essayWarningOf (essay : String) : Option String :=
  if essay != "" && !(checkViolations essay).isEmpty
  then some (mkEssayWarning (checkViolations essay)) else none

/-- Process configuration and external-world behavior for one request:
credentials, the extra rules loaded at startup, what each outbound call
would do, and the clock. -/
structure Env where
  geminiKey : String
  braveToken : String
  extraRules : List String
  geminiOutcome : FetchOutcome
  braveOutcome : BraveOutcome
  now : Nat

/-- The JSON response of the handler.  A field of value `none` is absent
from the returned object (`undefined` is dropped by `res.json`); the
`essayWarning` field is present on every success response but may be
`null`, hence `Option (Option String)`.  The provider-shaped
`searchResults` field is tracked separately in `HandlerOut.searchState`. -/
structure Resp where
  status : Nat
  refused : Option Bool
  reason : Option (List String)
  reply : Option String
  essayWarning : Option (Option String)
  usedSearch : Option Bool
  usedReasoning : Option Bool
deriving DecidableEq

/-- The record of the Gemini call the handler made: the composed prompt and
the options passed (`temperature` in thousandths, `max_tokens`). -/
structure GeminiCall where
  prompt : String
  tempMilli : Nat
  maxTokens : Nat

/-- Everything observable about one handled POST request: the JSON response,
the final conversation store and cache, the search activity, and the Gemini
call if one was made. -/
structure HandlerOut where
  resp : Resp
  mem : Mem
  cache : Cache SearchVal
  searchState : SearchState
  call : Option GeminiCall

/-- The POST handler (lines 440-541), in-memory fallback (no Redis, no LRU).
Steps, in source order: defaulted fields; the refusal gate on message+url;
the soft essay scan (whose warning is also appended to memory); the two
heuristics; the cached Brave search; prompt assembly; the user-message
append; the Gemini call; the assistant-reply append; the 200 response. -/
def handler (env : Env) (mem : Mem) (cache : Cache SearchVal) (b : Body) :
    HandlerOut :=
  let userId := userIdOf b
  let message := b.message.getD ""
  let essay := b.essay.getD ""
  let violations := checkViolations (intentTextOf b)
  if violations.length > 0 then
    let reply := refusalReply violations
    { resp := { status := 200, refused := some true, reason := some violations,
                reply := some reply, essayWarning := none,
                usedSearch := none, usedReasoning := none },
      mem := appendMemory mem userId ⟨"assistant", reply, env.now⟩,
      cache := cache, searchState := .noSearch, call := none }
  else
    let essayWarning := essayWarningOf essay
    let mem1 := match essayWarning with
      | some w => appendMemory mem userId ⟨"assistant", w, env.now⟩
      | none => mem
    let doSearch := needsSearchHeuristic b
    let doReasoning := needsReasoningHeuristic b
    let sc := searchStep env.now env.braveToken env.braveOutcome cache b doSearch
    let extraContext := extraContextOf doSearch sc.1 (gradeRubricSummary (gradeRawOf b))
    let ctx := buildConversationContext env.extraRules mem1 userId extraContext
    let prompt := composePrompt env.extraRules (actionOf b) (gradeRawOf b)
      ctx message essay doReasoning
    let tokenBudget := if doReasoning then 1200 else 600
    let tempMilli := if doReasoning then 150 else 200
    let mem2 := appendMemory mem1 userId
      ⟨"user",
       (if message != "" then message
        else if essay != "" then essay
        else (jsTruthy b.searchQuery).getD ""), env.now⟩
    let aiResponse := callGemini env.geminiKey ⟨tempMilli, tokenBudget⟩ env.geminiOutcome
    let mem3 := appendMemory mem2 userId ⟨"assistant", aiResponse, env.now⟩
    { resp := { status := 200, refused := none, reason := none,
                reply := some aiResponse,
                essayWarning := some essayWarning,
                usedSearch := some (doSearch && (env.braveToken != "")),
                usedReasoning := some doReasoning },
      mem := mem3, cache := sc.2, searchState := sc.1,
      call := some ⟨prompt, tempMilli, tokenBudget⟩ }

/-! ## Concrete fixtures used to instantiate the theorems -/

/-- A bare-bones environment: nothing configured, both backends down. -/
def envPlain : Env :=
  { geminiKey := "", braveToken := "", extraRules := [],
    geminiOutcome := .throws "network down",
    braveOutcome := .throws "network down", now := 0 }

/-- An environment with a Brave token and a successful search backend. -/
def envBrave : Env :=
  { geminiKey := "", braveToken := "tok", extraRules := [],
    geminiOutcome := .throws "network down",
    braveOutcome := .ok ⟨"resultsA", none⟩, now := 0 }

def bodyHello : Body := { message := some "hello there" }

def bodyHw : Body := { message := some "please do my homework" }

/-- Two requests that differ only in the requesting user, with the same
essay payload, both forcing the search path. -/
def bodyEssayA : Body :=
  { user := some "alice", essay := some "the water cycle",
    useBraveSearch := .boolv true }

def bodyEssayB : Body :=
  { user := some "bob", essay := some "the water cycle",
    useBraveSearch := .boolv true }

/-- A chat request with a short message but an essay longer than 800
characters and no other reasoning trigger. -/
def bodyLongEssay : Body :=
  { message := some "hi", essay := some ⟨List.replicate 801 'a'⟩ }

def bodyAnalyze : Body :=
  { action := some "analyze_essay", message := some "water cycle notes" }

/-- Predicate: `pat` occurs as a contiguous substring of `s`. -/
def strIn (pat s : String) : Prop :=
  ∃ l r : List Char, s.toList = l ++ pat.toList ++ r

/-! ## General lemmas -/

theorem strToList_append (a b : String) : (a ++ b).toList = a.toList ++ b.toList := by
  cases a; cases b; rfl

theorem strIn_of_mem_joinSep {r : String} {rs : List String} (h : r ∈ rs)
    (p q : String) : strIn r (p ++ joinSep ", " rs ++ q) := by
  induction rs generalizing p with
  | nil => cases h
  | cons x t ih =>
    cases t with
    | nil =>
      rcases List.mem_singleton.mp h with rfl
      exact ⟨p.toList, q.toList, by simp [strToList_append, joinSep]⟩
    | cons y t2 =>
      rcases List.mem_cons.mp h with rfl | h2
      · refine ⟨p.toList, (", " ++ joinSep ", " (y :: t2) ++ q).toList, ?_⟩
        have step : p ++ joinSep ", " (r :: y :: t2) ++ q
            = p ++ (r ++ (", " ++ joinSep ", " (y :: t2) ++ q)) := by
          show p ++ (r ++ ", " ++ joinSep ", " (y :: t2)) ++ q = _
          simp [String.append_assoc]
        rw [step]
        simp [strToList_append, List.append_assoc]
      · have step : p ++ joinSep ", " (x :: y :: t2) ++ q
            = (p ++ x ++ ", ") ++ joinSep ", " (y :: t2) ++ q := by
          show p ++ (x ++ ", " ++ joinSep ", " (y :: t2)) ++ q = _
          simp [String.append_assoc]
        rw [step]
        exact ih h2 (p ++ x ++ ", ")

theorem drop_last_append_drop_last {α : Type} (N : Nat) (xs ys : List α) :
    (xs.drop (xs.length - N) ++ ys).drop ((xs.drop (xs.length - N) ++ ys).length - N)
      = (xs ++ ys).drop ((xs ++ ys).length - N) := by
  rcases Nat.le_total xs.length N with hle | hge
  · have h0 : xs.length - N = 0 := by omega
    rw [h0, List.drop_zero]
  · have ha : (xs.drop (xs.length - N)).length = N := by
      rw [List.length_drop]; omega
    rw [List.drop_append_eq_append_drop, List.drop_append_eq_append_drop]
    have hxa : (xs.drop (xs.length - N)).drop ((xs.drop (xs.length - N) ++ ys).length - N)
        = xs.drop ((xs ++ ys).length - N) := by
      rw [List.drop_drop]
      have hidx : xs.length - N + ((xs.drop (xs.length - N) ++ ys).length - N)
          = (xs ++ ys).length - N := by
        rw [List.length_append, List.length_append, ha]; omega
      rw [hidx]
    have hys : (xs.drop (xs.length - N) ++ ys).length - N - (xs.drop (xs.length - N)).length
        = (xs ++ ys).length - N - xs.length := by
      rw [List.length_append, List.length_append, ha]; omega
    rw [hxa, hys]

theorem appendMemory_apply_self (mem : Mem) (u : String) (msg : StoredMsg) :
    appendMemory mem u msg u
      = (mem u ++ [msg]).drop ((mem u ++ [msg]).length - MAX_MESSAGES_PER_USER) := by
  simp only [appendMemory, updateMem, if_pos]
  split
  · rfl
  · next h =>
    have h0 : (mem u ++ [msg]).length - MAX_MESSAGES_PER_USER = 0 := by omega
    rw [h0, List.drop_zero]

theorem appendMemory_read_len (mem : Mem) (u : String) (msg : StoredMsg) :
    (readMemory (appendMemory mem u msg) u).length ≤ MAX_MESSAGES_PER_USER := by
  show (appendMemory mem u msg u).length ≤ MAX_MESSAGES_PER_USER
  rw [appendMemory_apply_self, List.length_drop]
  have hpos : 0 < (mem u ++ [msg]).length := by
    rw [List.length_append]; simp
  omega

theorem foldl_appendMemory (u : String) :
    ∀ (ms : List StoredMsg) (mem : Mem), (mem u).length ≤ MAX_MESSAGES_PER_USER →
    readMemory (ms.foldl (fun m x => appendMemory m u x) mem) u
      = (mem u ++ ms).drop ((mem u ++ ms).length - MAX_MESSAGES_PER_USER) := by
  intro ms
  induction ms with
  | nil =>
    intro mem hlen
    simp only [List.foldl_nil, List.append_nil, readMemory]
    have h0 : (mem u).length - MAX_MESSAGES_PER_USER = 0 := by omega
    rw [h0, List.drop_zero]
  | cons x ms ih =>
    intro mem hlen
    simp only [List.foldl_cons]
    rw [ih (appendMemory mem u x) (appendMemory_read_len mem u x)]
    rw [appendMemory_apply_self]
    rw [drop_last_append_drop_last MAX_MESSAGES_PER_USER (mem u ++ [x]) ms]
    rw [List.append_assoc, List.singleton_append]

theorem cacheGet_cacheSet_self {α : Type} (now t ttl : Nat) (c : Cache α)
    (k : String) (v : α) :
    cacheGet now (cacheSet t c k v ttl) k
      = if now > t + ttl then none else some v := by
  simp only [cacheGet, cacheSet, eq_self_iff_true, if_true]

/-! ## Claim theorems -/

/-- C5: for every user, after any sequence of appends to the (in-memory
fallback) conversation store, the stored log is exactly the most recent
`MAX_MESSAGES_PER_USER = 150` of the appended messages, oldest-first in
append order (`List.drop` of all but the last 150), and in particular its
length never exceeds the bound. -/
theorem C5_retention (u : String) (ms : List StoredMsg) :
    readMemory (ms.foldl (fun m x => appendMemory m u x) emptyMem) u
      = ms.drop (ms.length - MAX_MESSAGES_PER_USER)
    ∧ (readMemory (ms.foldl (fun m x => appendMemory m u x) emptyMem) u).length
      ≤ MAX_MESSAGES_PER_USER := by
  have h := foldl_appendMemory u ms emptyMem (by simp [emptyMem])
  simp only [emptyMem, List.nil_append] at h
  refine ⟨h, ?_⟩
  rw [h, List.length_drop]
  omega

/-- C6: for every cache key of the in-memory `contextCache` fallback, a
`get` strictly after the most recent `set`'s TTL has elapsed is a miss, and
a `get` before the TTL elapses returns the most recently `set` value
(last-write-wins over an earlier `set` of the same key). -/
theorem C6_cache_ttl {α : Type} (c : Cache α) (k : String) (v₁ v₂ : α)
    (t₁ ttl₁ t₂ ttl₂ now : Nat) :
    (now > t₂ + ttl₂ →
      cacheGet now (cacheSet t₂ (cacheSet t₁ c k v₁ ttl₁) k v₂ ttl₂) k = none)
    ∧ (now ≤ t₂ + ttl₂ →
      cacheGet now (cacheSet t₂ (cacheSet t₁ c k v₁ ttl₁) k v₂ ttl₂) k = some v₂) := by
  rw [cacheGet_cacheSet_self]
  constructor
  · intro h
    rw [if_pos h]
  · intro h
    rw [if_neg (by omega)]

/-- Witness for C6 at concrete inputs: key `"brave:q"`, second write at
time 10 with TTL 5; a read at time 16 misses, a read at time 12 returns the
second value. -/
theorem C6_cache_ttl_witness :
    (cacheGet 16 (cacheSet 10 (cacheSet 0 (emptyCache (α := Nat)) "brave:q" 1 5) "brave:q" 2 5) "brave:q" = none)
    ∧ (cacheGet 12 (cacheSet 10 (cacheSet 0 (emptyCache (α := Nat)) "brave:q" 1 5) "brave:q" 2 5) "brave:q" = some 2) :=
  ⟨(C6_cache_ttl emptyCache "brave:q" 1 2 0 5 10 5 16).1 (by omega),
   (C6_cache_ttl emptyCache "brave:q" 1 2 0 5 10 5 12).2 (by omega)⟩

/-- C1 (counterexample to the claim as stated): on a request whose intent
text matches no forbidden pattern the success response does *not* carry a
`refused` field at all (`refused` is omitted from the returned JSON object),
so it is not `refused=false`. -/
theorem C1_counterexample :
    checkViolations (intentTextOf bodyHello) = []
    ∧ (handler envPlain emptyMem emptyCache bodyHello).resp.refused ≠ some false
    ∧ (handler envPlain emptyMem emptyCache bodyHello).resp.refused = none := by
  refine ⟨by decide, ?_, ?_⟩ <;> decide

/-- C1 (amended): if the intent text (message concatenated with the optional
url) matches at least one forbidden pattern, the response has
`refused = true`, `reason` equal to the list of every matched pattern's
reason, and a reply string containing every matched reason; if it matches
none, the response omits the `refused` field (in particular it is never
`true`). -/
theorem C1_intent_gate (env : Env) (mem : Mem) (cache : Cache SearchVal) (b : Body) :
    (checkViolations (intentTextOf b) ≠ [] →
      (handler env mem cache b).resp.refused = some true
      ∧ (handler env mem cache b).resp.reason = some (checkViolations (intentTextOf b))
      ∧ (handler env mem cache b).resp.reply
          = some (refusalReply (checkViolations (intentTextOf b)))
      ∧ ∀ r ∈ checkViolations (intentTextOf b),
          strIn r (refusalReply (checkViolations (intentTextOf b))))
    ∧ (checkViolations (intentTextOf b) = [] →
      (handler env mem cache b).resp.refused = none) := by
  constructor
  · intro h
    have hlen : (checkViolations (intentTextOf b)).length > 0 := List.length_pos.mpr h
    refine ⟨?_, ?_, ?_, fun r hr => strIn_of_mem_joinSep hr _ _⟩ <;>
      simp only [handler] <;> rw [if_pos hlen]
  · intro h
    have hlen : ¬ (checkViolations (intentTextOf b)).length > 0 := by
      rw [h]; simp
    simp only [handler]
    rw [if_neg hlen]

/-- Witness for C1 at concrete requests: "please do my homework" is refused
with reason list `["academic dishonesty"]`; "hello there" gets a response
with no `refused` field. -/
theorem C1_intent_gate_witness :
    (handler envPlain emptyMem emptyCache bodyHw).resp.refused = some true
    ∧ (handler envPlain emptyMem emptyCache bodyHw).resp.reason
        = some ["academic dishonesty"]
    ∧ (handler envPlain emptyMem emptyCache bodyHello).resp.refused = none := by
  refine ⟨((C1_intent_gate envPlain emptyMem emptyCache bodyHw).1 (by decide)).1, ?_,
    (C1_intent_gate envPlain emptyMem emptyCache bodyHello).2 (by decide)⟩
  rw [((C1_intent_gate envPlain emptyMem emptyCache bodyHw).1 (by decide)).2.1]
  decide

theorem readMemory_appendMemory_self (mem : Mem) (u : String) (msg : StoredMsg) :
    readMemory (appendMemory mem u msg) u
      = (mem u ++ [msg]).drop ((mem u ++ [msg]).length - MAX_MESSAGES_PER_USER) :=
  appendMemory_apply_self mem u msg

/-- C9: on every refused request the handler appends exactly one message to
the refusing user's conversation log — the assistant refusal reply — and no
user-role entry is added (every user-role message in the new log was already
in the old one). -/
theorem C9_refusal_memory (env : Env) (mem : Mem) (cache : Cache SearchVal)
    (b : Body) (h : checkViolations (intentTextOf b) ≠ []) :
    (handler env mem cache b).mem
      = appendMemory mem (userIdOf b)
          ⟨"assistant", refusalReply (checkViolations (intentTextOf b)), env.now⟩
    ∧ ∀ m ∈ readMemory (handler env mem cache b).mem (userIdOf b),
        m.role = "user" → m ∈ readMemory mem (userIdOf b) := by
  have hlen : (checkViolations (intentTextOf b)).length > 0 := List.length_pos.mpr h
  have hmem : (handler env mem cache b).mem
      = appendMemory mem (userIdOf b)
          ⟨"assistant", refusalReply (checkViolations (intentTextOf b)), env.now⟩ := by
    simp only [handler]
    rw [if_pos hlen]
  refine ⟨hmem, ?_⟩
  intro m hm hrole
  rw [hmem, readMemory_appendMemory_self] at hm
  have hm2 := List.mem_of_mem_drop hm
  rcases List.mem_append.mp hm2 with h1 | h2
  · exact h1
  · rcases List.mem_singleton.mp h2 with rfl
    have hne : ("assistant" : String) ≠ "user" := by decide
    exact absurd hrole hne

/-- Witness for C9: the refused "please do my homework" request leaves the
store equal to a single append of the assistant refusal reply. -/
theorem C9_refusal_memory_witness :
    (handler envPlain emptyMem emptyCache bodyHw).mem
      = appendMemory emptyMem (userIdOf bodyHw)
          ⟨"assistant", refusalReply (checkViolations (intentTextOf bodyHw)),
           envPlain.now⟩ :=
  (C9_refusal_memory envPlain emptyMem emptyCache bodyHw (by decide)).1

/-- C2: forbidden patterns occurring only in the essay never refuse the
request and never stop the analysis (the response is a 200 with a reply from
the completion call); a match in the essay yields an `essayWarning` string
naming every matched reason, and a clean essay leaves `essayWarning` null. -/
theorem C2_essay_soft_warning (env : Env) (mem : Mem) (cache : Cache SearchVal)
    (b : Body) (h : checkViolations (intentTextOf b) = []) :
    (handler env mem cache b).resp.refused ≠ some true
    ∧ (handler env mem cache b).resp.status = 200
    ∧ ((handler env mem cache b).call).isSome = true
    ∧ (checkViolations (b.essay.getD "") ≠ [] →
        (handler env mem cache b).resp.essayWarning
          = some (some (mkEssayWarning (checkViolations (b.essay.getD ""))))
        ∧ ∀ r ∈ checkViolations (b.essay.getD ""),
            strIn r (mkEssayWarning (checkViolations (b.essay.getD ""))))
    ∧ (checkViolations (b.essay.getD "") = [] →
        (handler env mem cache b).resp.essayWarning = some none) := by
  have hlen : ¬ (checkViolations (intentTextOf b)).length > 0 := by
    rw [h]; simp
  refine ⟨?_, ?_, ?_, ?_, ?_⟩
  · simp only [handler]
    rw [if_neg hlen]
    simp
  · simp only [handler]
    rw [if_neg hlen]
  · simp only [handler]
    rw [if_neg hlen]
    rfl
  · intro hv
    have hne : b.essay.getD "" ≠ "" := by
      intro he
      rw [he] at hv
      exact hv (by decide)
    have hwarn : essayWarningOf (b.essay.getD "")
        = some (mkEssayWarning (checkViolations (b.essay.getD ""))) := by
      have hc : (b.essay.getD "" != "" && !(checkViolations (b.essay.getD "")).isEmpty) = true := by
        rw [Bool.and_eq_true]
        refine ⟨bne_iff_ne.mpr hne, ?_⟩
        cases hl : checkViolations (b.essay.getD "") with
        | nil => exact absurd hl hv
        | cons a t => rfl
      simp only [essayWarningOf]
      rw [if_pos hc]
    refine ⟨?_, fun r hr => strIn_of_mem_joinSep hr _ _⟩
    simp only [handler]
    rw [if_neg hlen]
    show some (essayWarningOf (b.essay.getD "")) = _
    rw [hwarn]
  · intro hv
    simp only [handler]
    rw [if_neg hlen]
    show some (essayWarningOf (b.essay.getD "")) = some none
    simp [essayWarningOf, hv]

/-- Witness for C2: an `analyze_essay` request whose essay contains "a bomb"
is not refused, proceeds to the completion call, and carries an
`essayWarning` naming "weapons/explosives"; the same request with a clean
essay has a null `essayWarning`. -/
theorem C2_essay_soft_warning_witness :
    (handler envPlain emptyMem emptyCache
        { action := some "analyze_essay",
          essay := some "a bomb appears in my story" }).resp.refused ≠ some true
    ∧ (handler envPlain emptyMem emptyCache
        { action := some "analyze_essay",
          essay := some "a bomb appears in my story" }).resp.essayWarning
        = some (some (mkEssayWarning ["weapons/explosives"]))
    ∧ (handler envPlain emptyMem emptyCache bodyHello).resp.essayWarning
        = some none := by
  refine ⟨(C2_essay_soft_warning envPlain emptyMem emptyCache _ (by decide)).1, ?_, ?_⟩
  · have := ((C2_essay_soft_warning envPlain emptyMem emptyCache
      { action := some "analyze_essay",
        essay := some "a bomb appears in my story" } (by decide)).2.2.2.1 (by decide)).1
    rw [this]
    decide
  · exact (C2_essay_soft_warning envPlain emptyMem emptyCache bodyHello
      (by decide)).2.2.2.2 (by decide)

/-- C7: with no completion-backend credential configured the completion call
returns the fixed "not configured" sentinel (it does not throw), the
handler's response to such a (non-refused) request is HTTP 200 with `reply`
equal to that sentinel, and any transport/backend failure likewise yields an
error-describing string. -/
theorem C7_unconfigured_sentinel (opts : GeminiOpts) (outcome : FetchOutcome)
    (errMsg key : String) (env : Env) (mem : Mem) (cache : Cache SearchVal)
    (b : Body) :
    callGemini "" opts outcome = NO_KEY_SENTINEL
    ∧ (key ≠ "" →
        callGemini key opts (.throws errMsg) = "LLM call error: " ++ errMsg)
    ∧ (env.geminiKey = "" → checkViolations (intentTextOf b) = [] →
        (handler env mem cache b).resp.status = 200
        ∧ (handler env mem cache b).resp.reply = some NO_KEY_SENTINEL) := by
  refine ⟨rfl, ?_, ?_⟩
  · intro hk
    have hk' : ¬ ((key == "") = true) := by
      simp [hk]
    simp only [callGemini]
    rw [if_neg hk']
  · intro hkey hviol
    have hlen : ¬ (checkViolations (intentTextOf b)).length > 0 := by
      rw [hviol]; simp
    constructor
    · simp only [handler]
      rw [if_neg hlen]
    · simp only [handler]
      rw [if_neg hlen]
      show some (callGemini env.geminiKey _ env.geminiOutcome) = some NO_KEY_SENTINEL
      rw [hkey]
      rfl

/-- Witness for C7: with an empty key the call returns the sentinel; with a
key, a thrown transport error becomes an error string; the unconfigured
handler answers 200 with the sentinel reply. -/
theorem C7_unconfigured_sentinel_witness :
    callGemini "" ⟨200, 600⟩ (.throws "x") = NO_KEY_SENTINEL
    ∧ callGemini "k" ⟨200, 600⟩ (.throws "boom") = "LLM call error: " ++ "boom"
    ∧ (handler envPlain emptyMem emptyCache bodyHello).resp.status = 200
    ∧ (handler envPlain emptyMem emptyCache bodyHello).resp.reply
        = some NO_KEY_SENTINEL :=
  ⟨(C7_unconfigured_sentinel ⟨200, 600⟩ (.throws "x") "boom" "k" envPlain emptyMem
      emptyCache bodyHello).1,
   (C7_unconfigured_sentinel ⟨200, 600⟩ (.throws "x") "boom" "k" envPlain emptyMem
      emptyCache bodyHello).2.1 (by decide),
   ((C7_unconfigured_sentinel ⟨200, 600⟩ (.throws "x") "boom" "k" envPlain emptyMem
      emptyCache bodyHello).2.2 rfl (by decide)).1,
   ((C7_unconfigured_sentinel ⟨200, 600⟩ (.throws "x") "boom" "k" envPlain emptyMem
      emptyCache bodyHello).2.2 rfl (by decide)).2⟩

theorem needsReasoning_of_analyze (b : Body)
    (h : b.action = some "analyze_essay") : needsReasoningHeuristic b = true := by
  simp [needsReasoningHeuristic, h]

/-- C10: in the `analyze_essay` action with an empty (or absent) essay field
the message text is substituted as the essay body (`essay || message`), and
the prompt ends with that text truncated to 30000 characters. -/
theorem C10_essay_fallback (env : Env) (mem : Mem) (cache : Cache SearchVal)
    (b : Body) (hact : b.action = some "analyze_essay")
    (hess : b.essay.getD "" = "")
    (hviol : checkViolations (intentTextOf b) = []) :
    ∃ ctx : String,
      (handler env mem cache b).call
        = some ⟨mkAnalyzePrompt env.extraRules (gradeRawOf b) ctx
                  (b.message.getD ""), 150, 1200⟩
      ∧ mkAnalyzePrompt env.extraRules (gradeRawOf b) ctx (b.message.getD "")
          = buildSystemPrompt env.extraRules (gradeRawOf b)
            ++ "\n\nConversation summary:\n" ++ ctx
            ++ analyzeTaskHeader (gradeRawOf b)
            ++ strTake (b.message.getD "") 30000 := by
  have hlen : ¬ (checkViolations (intentTextOf b)).length > 0 := by
    rw [hviol]; simp
  have hr := needsReasoning_of_analyze b hact
  have hao : actionOf b = "analyze_essay" := by
    simp [actionOf, jsTruthy, hact]
  refine ⟨buildConversationContext env.extraRules
      (match essayWarningOf (b.essay.getD "") with
       | some w => appendMemory mem (userIdOf b) ⟨"assistant", w, env.now⟩
       | none => mem)
      (userIdOf b)
      (extraContextOf (needsSearchHeuristic b)
        (searchStep env.now env.braveToken env.braveOutcome cache b
          (needsSearchHeuristic b)).1
        (gradeRubricSummary (gradeRawOf b))), ?_, rfl⟩
  simp only [handler]
  rw [if_neg hlen]
  show some (⟨composePrompt env.extraRules (actionOf b) (gradeRawOf b) _
      (b.message.getD "") (b.essay.getD "") (needsReasoningHeuristic b),
      (if needsReasoningHeuristic b then 150 else 200),
      (if needsReasoningHeuristic b then 1200 else 600)⟩ : GeminiCall) = _
  rw [hr, hao, hess]
  simp only [composePrompt]
  rw [if_pos (by decide)]
  rw [if_neg (by decide)]
  simp

/-- Witness for C10: a concrete `analyze_essay` request with no essay field
produces an analysis prompt ending in the (truncated) message text. -/
theorem C10_essay_fallback_witness :
    ∃ ctx : String,
      (handler envPlain emptyMem emptyCache bodyAnalyze).call
        = some ⟨mkAnalyzePrompt envPlain.extraRules (gradeRawOf bodyAnalyze) ctx
                  (bodyAnalyze.message.getD ""), 150, 1200⟩
      ∧ mkAnalyzePrompt envPlain.extraRules (gradeRawOf bodyAnalyze) ctx
            (bodyAnalyze.message.getD "")
          = buildSystemPrompt envPlain.extraRules (gradeRawOf bodyAnalyze)
            ++ "\n\nConversation summary:\n" ++ ctx
            ++ analyzeTaskHeader (gradeRawOf bodyAnalyze)
            ++ strTake (bodyAnalyze.message.getD "") 30000 :=
  C10_essay_fallback envPlain emptyMem emptyCache bodyAnalyze rfl rfl (by decide)

/-- C3 (counterexample to the idempotence part): the textual name of the
`advanced` band re-normalizes to the `unspecified` band, not to `advanced`
("advanced" contains no digit and none of the keywords `k`, `elementary`,
`middle`, `high`). -/
theorem C3_counterexample :
    normBand (some "advanced") = GradeBand.unspecified
    ∧ GradeBand.unspecified ≠ GradeBand.advanced := by
  exact ⟨by decide, by decide⟩

theorem C3_digit_precedence (s : String) (n : Nat)
    (hd : firstDigitRun (lowerStr (jsTrim s)).toList = some n) :
    normalizeGrade (some s) = some n := by
  by_cases hs : s = ""
  · subst hs
    have h0 : firstDigitRun (lowerStr (jsTrim "")).toList = none := rfl
    rw [h0] at hd
    exact Option.noConfusion hd
  · simp only [normalizeGrade]
    rw [if_neg (by simp [hs])]
    rw [hd]

/-- C3 (amended): grade normalization is total — every input maps to exactly
one of the five bands, the summary string being fixed per band — and a run
of 1-2 digits anywhere in the input takes precedence over any keyword; the
textual band names `unspecified`, `K-5`, `6-8`, `9-12` re-normalize to their
own bands, but `advanced` re-normalizes to `unspecified`. -/
theorem C3_grade_normalization (g : Option String) (s : String) (n : Nat)
    (b : GradeBand) :
    (gradeRubricSummary g = summaryOfBand (normBand g)
     ∧ normBand g ∈ [GradeBand.unspecified, GradeBand.elementary,
         GradeBand.middle, GradeBand.high, GradeBand.advanced])
    ∧ (firstDigitRun (lowerStr (jsTrim s)).toList = some n →
         normalizeGrade (some s) = some n)
    ∧ (b ≠ GradeBand.advanced → normBand (some (bandName b)) = b)
    ∧ normBand (some "advanced") = GradeBand.unspecified := by
  refine ⟨⟨rfl, ?_⟩, C3_digit_precedence s n, ?_, by decide⟩
  · cases normBand g <;> simp
  · intro hb
    cases b
    · decide
    · decide
    · decide
    · decide
    · exact absurd rfl hb

/-- Witness for C3: "9 elementary" normalizes to grade 9 (digits beat the
keyword), and the band name "9-12" re-normalizes to the 9-12 band. -/
theorem C3_grade_normalization_witness :
    normalizeGrade (some "9 elementary") = some 9
    ∧ normBand (some "9-12") = GradeBand.high :=
  ⟨(C3_grade_normalization (some "9 elementary") "9 elementary" 9
      GradeBand.high).2.1 (by decide),
   (C3_grade_normalization (some "9-12") "9-12" 9 GradeBand.high).2.2.1
      (by decide)⟩

/-- C4 (counterexample): the only cache-key derivation in the source is
`` `brave:${query}` `` with no user component, so two different users
analyzing the same essay (with search) produce the *same* cache key, and
both requests populate the cache under that shared key. -/
theorem C4_counterexample :
    userIdOf bodyEssayA ≠ userIdOf bodyEssayB
    ∧ braveCacheKeyOf bodyEssayA = braveCacheKeyOf bodyEssayB
    ∧ (handler envBrave emptyMem emptyCache bodyEssayA).cache
        (braveCacheKeyOf bodyEssayA) ≠ none
    ∧ (handler envBrave emptyMem emptyCache bodyEssayB).cache
        (braveCacheKeyOf bodyEssayA) ≠ none := by
  exact ⟨by decide, by decide, by decide, by decide⟩

theorem string_append_left_cancel {p a b : String} (h : p ++ a = p ++ b) :
    a = b := by
  have h2 : (p ++ a).data = (p ++ b).data := congrArg String.data h
  rw [String.data_append, String.data_append] at h2
  have h3 := List.append_cancel_left h2
  cases a; cases b
  exact congrArg String.mk (by simpa using h3)

theorem searchStep_frame (now : Nat) (tok : String) (out : BraveOutcome)
    (cache : Cache SearchVal) (b : Body) (ds : Bool) (k : String)
    (hk : k ≠ braveCacheKeyOf b) :
    (searchStep now tok out cache b ds).2 k = cache k := by
  simp only [searchStep]
  split
  · split
    · rfl
    · split
      · show cacheSet now cache (braveCacheKeyOf b) _ _ k = cache k
        simp only [cacheSet]
        rw [if_neg hk]
      · rfl
  · rfl

/-- C4 (amended): the source derives cache keys only for Brave search
results, as the single namespace `brave:` followed by the query (the
explicit `searchQuery`, else the first 300 characters of the essay if
non-empty, else of the message); the key is a function of the query alone —
it carries no user identity, so different users with equal queries share a
key — and the handler writes no cache key other than the derived one. -/
theorem C4_cache_key_shape (b₁ b₂ : Body) (env : Env) (mem : Mem)
    (cache : Cache SearchVal) (k : String) :
    (braveQueryOf b₁ = braveQueryOf b₂ →
       braveCacheKeyOf b₁ = braveCacheKeyOf b₂)
    ∧ (braveCacheKeyOf b₁ = braveCacheKeyOf b₂ →
       braveQueryOf b₁ = braveQueryOf b₂)
    ∧ (k ≠ braveCacheKeyOf b₁ →
       (handler env mem cache b₁).cache k = cache k) := by
  refine ⟨?_, ?_, ?_⟩
  · intro h
    simp only [braveCacheKeyOf]
    rw [h]
  · intro h
    exact string_append_left_cancel h
  · intro hk
    simp only [handler]
    split
    · rfl
    · exact searchStep_frame env.now env.braveToken env.braveOutcome cache b₁
        (needsSearchHeuristic b₁) k hk

/-- Witness for C4: the two equal-essay requests share one key, and a
request leaves every other key of the cache untouched. -/
theorem C4_cache_key_shape_witness :
    braveCacheKeyOf bodyEssayA = braveCacheKeyOf bodyEssayB
    ∧ (handler envBrave emptyMem emptyCache bodyEssayA).cache "other"
        = emptyCache "other" :=
  ⟨(C4_cache_key_shape bodyEssayA bodyEssayB envBrave emptyMem emptyCache
      "other").1 (by decide),
   (C4_cache_key_shape bodyEssayA bodyEssayB envBrave emptyMem emptyCache
      "other").2.2 (by decide)⟩

/-- C8 (counterexample): a chat request with a short non-empty message and a
900-character essay triggers none of the coded checks — the heuristic reads
`message || essay`, so a non-empty message shadows the long essay — yet the
claim's "message or essay length exceeds 800" condition holds. -/
theorem C8_counterexample :
    needsReasoningHeuristic bodyLongEssay = false
    ∧ (bodyLongEssay.essay.getD "").length > 800
    ∧ bodyLongEssay.useReasoning = JsFlag.absent
    ∧ bodyLongEssay.action ≠ some "analyze_essay"
    ∧ (bodyLongEssay.message.getD "").length ≤ 800 := by
  refine ⟨by decide, ?_, rfl, by decide, by decide⟩
  show (List.replicate 801 'a').length > 800
  rw [List.length_replicate]
  omega

theorem flagTruthy_iff (f : JsFlag) :
    flagTruthy f = true ↔
      (f = JsFlag.boolv true ∨ f = JsFlag.strv "1"
        ∨ f = JsFlag.strv "true" ∨ f = JsFlag.strv "yes") := by
  cases f with
  | absent => simp [flagTruthy]
  | boolv bv => cases bv <;> simp [flagTruthy]
  | strv s => simp [flagTruthy, or_assoc]

theorem testAny_iff (ps : List String) (t : String) :
    testAny ps t = true ↔ ∃ p ∈ ps, testPhrase p t = true := by
  simp [testAny, List.any_eq_true]

theorem needsReasoning_iff (b : Body) :
    needsReasoningHeuristic b = true ↔
      flagTruthy b.useReasoning = true
      ∨ b.action = some "analyze_essay"
      ∨ (reasoningContent b).length > 800
      ∨ testAny REASONING_KEYWORDS (reasoningContent b) = true := by
  simp only [needsReasoningHeuristic]
  by_cases h1 : flagTruthy b.useReasoning = true
  · simp [h1]
  · rw [if_neg h1]
    by_cases h2 : (b.action == some "analyze_essay") = true
    · have h2' : b.action = some "analyze_essay" := by simpa using h2
      simp [h2, h2']
    · have h2' : ¬ b.action = some "analyze_essay" := by simpa using h2
      rw [if_neg h2]
      by_cases h3 : (reasoningContent b).length > 800
      · simp [h3]
      · rw [if_neg h3]
        simp [h1, h2', h3]

/-- C8 (amended): the reasoning heuristic returns true exactly when the
`useReasoning` override is boolean `true` or one of the truthy strings, or
the action is `analyze_essay`, or the *effective content* — the message if
non-empty, else the essay — is longer than 800 characters or contains an
analytical-intent keyword (a long or keyword-bearing essay behind a
non-empty message does not trigger it); on a non-refused request the
completion call then uses max_tokens 600 and temperature 0.200 when the
heuristic is false (1200 and 0.150 when true): a narrower budget and a
higher temperature. -/
theorem C8_reasoning_heuristic (b : Body) (env : Env) (mem : Mem)
    (cache : Cache SearchVal) :
    (needsReasoningHeuristic b = true ↔
      (b.useReasoning = JsFlag.boolv true ∨ b.useReasoning = JsFlag.strv "1"
        ∨ b.useReasoning = JsFlag.strv "true" ∨ b.useReasoning = JsFlag.strv "yes")
      ∨ b.action = some "analyze_essay"
      ∨ (reasoningContent b).length > 800
      ∨ ∃ kw ∈ REASONING_KEYWORDS, testPhrase kw (reasoningContent b) = true)
    ∧ (checkViolations (intentTextOf b) = [] → needsReasoningHeuristic b = false →
        ((handler env mem cache b).call).map (fun c => (c.tempMilli, c.maxTokens))
          = some (200, 600))
    ∧ (checkViolations (intentTextOf b) = [] → needsReasoningHeuristic b = true →
        ((handler env mem cache b).call).map (fun c => (c.tempMilli, c.maxTokens))
          = some (150, 1200))
    ∧ 600 < 1200 ∧ 150 < 200 := by
  refine ⟨?_, ?_, ?_, by omega, by omega⟩
  · rw [needsReasoning_iff, flagTruthy_iff, testAny_iff]
  · intro hviol hfalse
    have hlen : ¬ (checkViolations (intentTextOf b)).length > 0 := by
      rw [hviol]; simp
    simp only [handler]
    rw [if_neg hlen]
    simp [hfalse]
  · intro hviol htrue
    have hlen : ¬ (checkViolations (intentTextOf b)).length > 0 := by
      rw [hviol]; simp
    simp only [handler]
    rw [if_neg hlen]
    simp [htrue]

/-- Witness for C8: the plain "hello there" chat gets the 600-token /
temperature-0.200 call; an `analyze_essay` request gets the 1200-token /
temperature-0.150 call. -/
theorem C8_reasoning_heuristic_witness :
    ((handler envPlain emptyMem emptyCache bodyHello).call).map
        (fun c => (c.tempMilli, c.maxTokens)) = some (200, 600)
    ∧ ((handler envPlain emptyMem emptyCache bodyAnalyze).call).map
        (fun c => (c.tempMilli, c.maxTokens)) = some (150, 1200) :=
  ⟨(C8_reasoning_heuristic bodyHello envPlain emptyMem emptyCache).2.1
      (by decide) (by decide),
   (C8_reasoning_heuristic bodyAnalyze envPlain emptyMem emptyCache).2.2.1
      (by decide) (by decide)⟩
